import Mathlib

/-!
Verification development for the billing-core repository: a relational
schema (projects, customers, transactions, subscriptions) with three
analytics views, and a reporting client (Dashboard, TransactionList,
SubscriptionList) that re-derives the same aggregates client-side.

Timestamps (`created_at`, TIMESTAMPTZ / JS Date) are modelled as natural
numbers of milliseconds.  SQL INTEGER amounts are modelled as `Int`.
`DATE_TRUNC('month', ...)` and JS `toLocaleDateString()` are modelled as
arbitrary functions `monthOf, dayOf : Nat → Nat` mapping a timestamp to
its calendar bucket; no claim below depends on the calendar structure of
such a function.
-/

/-- A row of the `transactions` table as fetched by the client (the
generated column `net_amount` is modelled separately in `TxnRow`). -/
structure Txn where
  project_id : Nat
  customer_id : Option Nat
  type : String
  status : String
  amount : Int
  fee_amount : Int
  created_at : Nat
deriving DecidableEq, Repr

/-- A row of the `subscriptions` table. -/
structure Subscription where
  project_id : Nat
  customer_id : Nat
  amount : Int
  status : String
  cancel_at_period_end : Bool
  created_at : Nat
deriving DecidableEq, Repr

/-- A row of the `customers` table (the fields the dashboard reads). -/
structure Customer where
  project_id : Nat
  created_at : Nat
deriving DecidableEq, Repr

/-- A stored row of the `transactions` table: the schema declares
`net_amount INTEGER GENERATED ALWAYS AS (amount - fee_amount) STORED`. -/
structure TxnRow where
  project_id : Nat
  customer_id : Option Nat
  type : String
  status : String
  amount : Int
  fee_amount : Int
  net_amount : Int
  created_at : Nat
deriving DecidableEq, Repr

/-- Inserting into `transactions`: the insert succeeds only when the
check constraints `amount_check (amount >= 0)` and
`fee_check (fee_amount >= 0)` hold, and the stored row's `net_amount` is
generated as `amount - fee_amount` (it is never supplied by the writer).
This is the only operation in the schema that produces a transaction
row; no statement updates `amount`, `fee_amount` or `net_amount`. -/
def insertTransaction (t : Txn) : Option TxnRow :=
  if 0 ≤ t.amount ∧ 0 ≤ t.fee_amount then
    some { project_id := t.project_id, customer_id := t.customer_id,
           type := t.type, status := t.status, amount := t.amount,
           fee_amount := t.fee_amount, net_amount := t.amount - t.fee_amount,
           created_at := t.created_at }
  else none

/-- The summary statistics computed by `fetchStats` in `Dashboard.jsx`. -/
structure Stats where
  totalRevenue : Int
  totalFees : Int
  netRevenue : Int
  totalTransactions : Nat
  totalCustomers : Nat
  activeSubscriptions : Nat
  mrr : Int
deriving DecidableEq, Repr

/-- `fetchStats` from `Dashboard.jsx`: fetches the project's
transactions and customers, fetches the project's subscriptions with
`.eq('status', 'active')`, filters transactions client-side to
`status === 'succeeded'` for the revenue and fee sums, and takes plain
lengths for the counts. -/
def fetchStats (pid : Nat) (transactions : List Txn) (customers : List Customer)
    (subscriptions : List Subscription) : Stats :=
  let txs := transactions.filter (fun t => t.project_id = pid)
  let custs := customers.filter (fun c => c.project_id = pid)
  let subs := subscriptions.filter (fun s => s.project_id = pid ∧ s.status = "active")
  let succeededTransactions := txs.filter (fun t => t.status = "succeeded")
  let totalRevenue := (succeededTransactions.map (fun t => t.amount)).sum
  let totalFees := (succeededTransactions.map (fun t => t.fee_amount)).sum
  { totalRevenue := totalRevenue, totalFees := totalFees,
    netRevenue := totalRevenue - totalFees,
    totalTransactions := txs.length, totalCustomers := custs.length,
    activeSubscriptions := subs.length,
    mrr := (subs.map (fun s => s.amount)).sum }

/-- The result shape of a supabase query: a nullable data array and a
nullable error. -/
structure QueryResult (α : Type) where
  data : Option (List α)
  error : Option String
deriving DecidableEq

/-- The component-local state of a list view (`TransactionList.jsx`,
`SubscriptionList.jsx`): the fetched rows and the loading flag. -/
structure ListViewState (α : Type) where
  items : List α
  loading : Bool
deriving DecidableEq

/-- The state update performed by `fetchTransactions` in
`TransactionList.jsx` once the query resolves: on error the catch block
only logs (`console.error`) — `setTransactions` is not called — and the
finally block clears `loading`; on success the rows (or `[]` when data
is null) are stored and `loading` is cleared.  Returns the new state and
the console log emitted. -/
def fetchTransactionsUpdate (s : ListViewState Txn) (res : QueryResult Txn) :
    ListViewState Txn × List String :=
  match res.error with
  | some e => ({ items := s.items, loading := false },
               ["Error fetching transactions: " ++ e])
  | none => ({ items := res.data.getD [], loading := false }, [])

/-- The state update performed by `fetchSubscriptions` in
`SubscriptionList.jsx`, identical in structure to
`fetchTransactionsUpdate`. -/
def fetchSubscriptionsUpdate (s : ListViewState Subscription)
    (res : QueryResult Subscription) : ListViewState Subscription × List String :=
  match res.error with
  | some e => ({ items := s.items, loading := false },
               ["Error fetching subscriptions: " ++ e])
  | none => ({ items := res.data.getD [], loading := false }, [])

/-- C1: for a project whose transactions are exactly
{amount=1000, fee_amount=50, status=succeeded} and
{amount=500, fee_amount=0, status=failed}, `fetchStats` reports
totalRevenue = 1000, totalFees = 50, netRevenue = 950 and
totalTransactions = 2: the revenue and fee sums range over succeeded
transactions only, the transaction count over all fetched rows. -/
theorem c1_fetchStats_example (pid : Nat) (t1 t2 : Txn)
    (cs : List Customer) (ss : List Subscription)
    (h1p : t1.project_id = pid) (h1a : t1.amount = 1000)
    (h1f : t1.fee_amount = 50) (h1s : t1.status = "succeeded")
    (h2p : t2.project_id = pid) (h2a : t2.amount = 500)
    (h2f : t2.fee_amount = 0) (h2s : t2.status = "failed") :
    (fetchStats pid [t1, t2] cs ss).totalRevenue = 1000 ∧
    (fetchStats pid [t1, t2] cs ss).totalFees = 50 ∧
    (fetchStats pid [t1, t2] cs ss).netRevenue = 950 ∧
    (fetchStats pid [t1, t2] cs ss).totalTransactions = 2 := by
  simp [fetchStats, List.filter, h1p, h1a, h1f, h1s, h2p, h2a, h2f, h2s]

/-- Witness for C1 at a concrete project: the two example transactions
with empty customer and subscription tables. -/
theorem c1_fetchStats_example_witness :
    (fetchStats 7
        [{ project_id := 7, customer_id := none, type := "payment",
           status := "succeeded", amount := 1000, fee_amount := 50,
           created_at := 0 },
         { project_id := 7, customer_id := none, type := "payment",
           status := "failed", amount := 500, fee_amount := 0,
           created_at := 1 }] [] []).totalRevenue = 1000 ∧
    (fetchStats 7
        [{ project_id := 7, customer_id := none, type := "payment",
           status := "succeeded", amount := 1000, fee_amount := 50,
           created_at := 0 },
         { project_id := 7, customer_id := none, type := "payment",
           status := "failed", amount := 500, fee_amount := 0,
           created_at := 1 }] [] []).totalFees = 50 ∧
    (fetchStats 7
        [{ project_id := 7, customer_id := none, type := "payment",
           status := "succeeded", amount := 1000, fee_amount := 50,
           created_at := 0 },
         { project_id := 7, customer_id := none, type := "payment",
           status := "failed", amount := 500, fee_amount := 0,
           created_at := 1 }] [] []).netRevenue = 950 ∧
    (fetchStats 7
        [{ project_id := 7, customer_id := none, type := "payment",
           status := "succeeded", amount := 1000, fee_amount := 50,
           created_at := 0 },
         { project_id := 7, customer_id := none, type := "payment",
           status := "failed", amount := 500, fee_amount := 0,
           created_at := 1 }] [] []).totalTransactions = 2 :=
  c1_fetchStats_example 7 _ _ [] [] rfl rfl rfl rfl rfl rfl rfl rfl

/-- C5: every transaction row that passes the insert-time constraints is
stored with `net_amount = amount - fee_amount`; `net_amount` is a
generated column and `insertTransaction` is the only producer of
transaction rows, so the equation holds of every stored row. -/
theorem c5_net_amount_generated (t : Txn) (r : TxnRow)
    (h : insertTransaction t = some r) :
    r.net_amount = r.amount - r.fee_amount := by
  unfold insertTransaction at h
  by_cases hc : 0 ≤ t.amount ∧ 0 ≤ t.fee_amount
  · simp [hc] at h
    subst h
    rfl
  · simp [hc] at h

/-- Witness for C5 at a concrete insert. -/
theorem c5_net_amount_generated_witness :
    (insertTransaction
        { project_id := 1, customer_id := none, type := "payment",
          status := "succeeded", amount := 1000, fee_amount := 50,
          created_at := 0 }).isSome = true ∧
    ∀ r, insertTransaction
        { project_id := 1, customer_id := none, type := "payment",
          status := "succeeded", amount := 1000, fee_amount := 50,
          created_at := 0 } = some r → r.net_amount = r.amount - r.fee_amount :=
  ⟨by decide, fun r h => c5_net_amount_generated _ r h⟩

/-- Descending order on `created_at`: the row order requested by
`.order('created_at', { ascending: false })`. -/
def createdDesc (a b : Txn) : Prop := b.created_at ≤ a.created_at

instance : DecidableRel createdDesc := fun a b => Nat.decLe b.created_at a.created_at

instance : IsTotal Txn createdDesc :=
  ⟨fun a b => (Nat.le_total b.created_at a.created_at).imp (fun h => h) (fun h => h)⟩

instance : IsTrans Txn createdDesc :=
  ⟨fun _ _ _ hab hbc => Nat.le_trans hbc hab⟩

/-- The query built by `fetchTransactions` in `TransactionList.jsx`:
rows of the active project, ordered by `created_at` descending, with an
additional `.eq('status', filter)` when the filter is not `'all'`.  The
database sort is modelled as an insertion sort by descending
`created_at`. -/
def fetchTransactionsQuery (tbl : List Txn) (pid : Nat) (f : String) : List Txn :=
  let base := tbl.filter (fun t => t.project_id = pid)
  let filtered := if f = "all" then base else base.filter (fun t => t.status = f)
  List.insertionSort createdDesc filtered

/-- C6 fails as stated: when the query errors, the catch block in
`fetchTransactions` only logs — it never calls `setTransactions` — so
the result set keeps its previous value instead of ending up empty.
Concretely, a state already holding one row still holds it after a
failed fetch. -/
theorem c6_error_counterexample :
    (fetchTransactionsUpdate
        { items := [{ project_id := 1, customer_id := none, type := "payment",
                      status := "succeeded", amount := 1000, fee_amount := 50,
                      created_at := 0 }], loading := false }
        { data := none, error := some "network error" }).1.items ≠ [] := by
  decide

/-- C6 (amended): when the query errors, both list views catch the
error, log it, and clear the loading indicator, but leave the result set
at its previous value (which is empty on the initial load, since the
state is initialised to `[]`); no retry is issued. -/
theorem c6_error_state_update (s : ListViewState Txn)
    (s' : ListViewState Subscription) (d : Option (List Txn))
    (d' : Option (List Subscription)) (e : String) :
    fetchTransactionsUpdate s { data := d, error := some e } =
      ({ items := s.items, loading := false },
       ["Error fetching transactions: " ++ e]) ∧
    fetchSubscriptionsUpdate s' { data := d', error := some e } =
      ({ items := s'.items, loading := false },
       ["Error fetching subscriptions: " ++ e]) :=
  ⟨rfl, rfl⟩

/-- C9: for a filter value other than `'all'`, the fetched transaction
list holds exactly the project's rows whose status equals the filter;
with `'all'` it holds the project's full set; in both cases the rows are
ordered by `created_at` descending. -/
theorem c9_transaction_list_filter (tbl : List Txn) (pid : Nat) (f : String) :
    (fetchTransactionsQuery tbl pid f).Perm
      (tbl.filter (fun t => t.project_id = pid ∧ (f = "all" ∨ t.status = f))) ∧
    List.Sorted createdDesc (fetchTransactionsQuery tbl pid f) := by
  refine ⟨?_, List.sorted_insertionSort createdDesc _⟩
  unfold fetchTransactionsQuery
  by_cases hf : f = "all"
  · simp only [hf, if_pos rfl]
    refine (List.perm_insertionSort createdDesc _).trans ?_
    refine List.Perm.of_eq (List.filter_congr ?_)
    intro t _
    simp
  · simp only [if_neg hf]
    refine (List.perm_insertionSort createdDesc _).trans ?_
    refine List.Perm.of_eq ?_
    rw [List.filter_filter]
    refine List.filter_congr ?_
    intro t _
    simp [hf, Bool.and_comm]

/-- Ascending order on `created_at`, requested by
`.order('created_at', { ascending: true })` in `fetchChartData`. -/
def createdAsc (a b : Txn) : Prop := a.created_at ≤ b.created_at

instance : DecidableRel createdAsc := fun a b => Nat.decLe a.created_at b.created_at

/-- One point of the trend series: a calendar day (as produced by the
day-bucketing function) and the accumulated revenue for that day. -/
structure Bucket where
  date : Nat
  revenue : ℚ
deriving DecidableEq, Repr

/-- One step of the `data?.forEach` loop in `fetchChartData`: if no
bucket exists yet for the transaction's day a zero bucket is created,
and when the transaction's status is `'succeeded'` its `amount / 100` is
added to the day's revenue. -/
def addTxToChart (dayOf : Nat → Nat) (acc : List Bucket) (t : Txn) : List Bucket :=
  if acc.any (fun b => b.date = dayOf t.created_at) then
    if t.status = "succeeded" then
      acc.map (fun b =>
        if b.date = dayOf t.created_at then
          { b with revenue := b.revenue + (t.amount : ℚ) / 100 }
        else b)
    else acc
  else
    acc ++ [{ date := dayOf t.created_at,
              revenue := if t.status = "succeeded" then (t.amount : ℚ) / 100 else 0 }]

/-- The `groupedByDay` accumulation of `fetchChartData`, in first-insertion
order (the iteration order of a JS object with date-string keys). -/
def groupByDay (dayOf : Nat → Nat) (l : List Txn) : List Bucket :=
  l.foldl (addTxToChart dayOf) []

/-- Thirty days in milliseconds: `thirtyDaysAgo.setDate(getDate() - 30)`. -/
def thirtyDaysMs : Nat := 30 * 86400000

/-- The rows returned by the `fetchChartData` query: the project's
transactions with `.gte('created_at', thirtyDaysAgo)`. -/
def chartWindow (now pid : Nat) (txs : List Txn) : List Txn :=
  txs.filter (fun t => t.project_id = pid ∧ now - thirtyDaysMs ≤ t.created_at)

/-- The full grouped day series of `fetchChartData`, before the final
`slice(-14)`. -/
def chartGroups (dayOf : Nat → Nat) (now pid : Nat) (txs : List Txn) : List Bucket :=
  groupByDay dayOf (List.insertionSort createdAsc (chartWindow now pid txs))

/-- `fetchChartData` from `Dashboard.jsx`: window query, group by day,
then `Object.values(groupedByDay).slice(-14)` — the last fourteen
day-buckets. -/
def fetchChartData (dayOf : Nat → Nat) (now pid : Nat) (txs : List Txn) : List Bucket :=
  let grouped := chartGroups dayOf now pid txs
  grouped.drop (grouped.length - 14)

lemma addTxToChart_date_mem (dayOf : Nat → Nat) (acc : List Bucket) (t : Txn)
    (b : Bucket) (hb : b ∈ addTxToChart dayOf acc t) :
    (∃ b' ∈ acc, b'.date = b.date) ∨ b.date = dayOf t.created_at := by
  unfold addTxToChart at hb
  split_ifs at hb with h1 h2 h3
  · rcases List.mem_map.1 hb with ⟨b', hb', rfl⟩
    left
    refine ⟨b', hb', ?_⟩
    by_cases hd : b'.date = dayOf t.created_at
    · rw [if_pos hd]
    · rw [if_neg hd]
  · exact Or.inl ⟨b, hb, rfl⟩
  all_goals
    rcases List.mem_append.1 hb with h | h
    · exact Or.inl ⟨b, h, rfl⟩
    · simp only [List.mem_singleton] at h
      subst h
      exact Or.inr rfl

lemma groupByDay_date_mem (dayOf : Nat → Nat) :
    ∀ (l : List Txn) (acc : List Bucket) (b : Bucket),
      b ∈ l.foldl (addTxToChart dayOf) acc →
      (∃ b' ∈ acc, b'.date = b.date) ∨ ∃ t ∈ l, b.date = dayOf t.created_at := by
  intro l
  induction l with
  | nil => exact fun acc b hb => Or.inl ⟨b, hb, rfl⟩
  | cons t l ih =>
    intro acc b hb
    rw [List.foldl_cons] at hb
    rcases ih _ b hb with ⟨b', hb', he⟩ | ⟨t', ht', he⟩
    · rcases addTxToChart_date_mem dayOf acc t b' hb' with ⟨b'', hb'', he'⟩ | he'
      · exact Or.inl ⟨b'', hb'', he'.trans he⟩
      · exact Or.inr ⟨t, List.mem_cons_self t l, by rw [← he, he']⟩
    · exact Or.inr ⟨t', List.mem_cons_of_mem t ht', he⟩

lemma addTxToChart_keeps_date (dayOf : Nat → Nat) (acc : List Bucket) (t : Txn)
    (d : Nat) (h : ∃ b ∈ acc, b.date = d) :
    ∃ b ∈ addTxToChart dayOf acc t, b.date = d := by
  rcases h with ⟨b, hb, he⟩
  unfold addTxToChart
  split_ifs with h1 h2 h3
  · refine ⟨_, List.mem_map_of_mem _ hb, ?_⟩
    by_cases hd : b.date = dayOf t.created_at
    · rw [if_pos hd]
      exact he
    · rw [if_neg hd]
      exact he
  · exact ⟨b, hb, he⟩
  all_goals exact ⟨b, List.mem_append_left _ hb, he⟩

lemma addTxToChart_adds_date (dayOf : Nat → Nat) (acc : List Bucket) (t : Txn) :
    ∃ b ∈ addTxToChart dayOf acc t, b.date = dayOf t.created_at := by
  by_cases h1 : acc.any (fun b => b.date = dayOf t.created_at) = true
  · refine addTxToChart_keeps_date dayOf acc t _ ?_
    simpa using h1
  · unfold addTxToChart
    rw [if_neg h1]
    exact ⟨_, List.mem_append_right _ (List.mem_singleton_self _), rfl⟩

lemma foldl_addTx_exists_date (dayOf : Nat → Nat) :
    ∀ (l : List Txn) (acc : List Bucket) (d : Nat),
      ((∃ b ∈ acc, b.date = d) ∨ ∃ t ∈ l, dayOf t.created_at = d) →
      ∃ b ∈ l.foldl (addTxToChart dayOf) acc, b.date = d := by
  intro l
  induction l with
  | nil =>
    intro acc d h
    rcases h with h | ⟨t, ht, _⟩
    · exact h
    · simp at ht
  | cons t l ih =>
    intro acc d h
    rw [List.foldl_cons]
    apply ih
    rcases h with h | ⟨t', ht', he⟩
    · exact Or.inl (addTxToChart_keeps_date dayOf acc t d h)
    · rcases List.mem_cons.1 ht' with rfl | ht''
      · exact Or.inl (he ▸ addTxToChart_adds_date dayOf acc t')
      · exact Or.inr ⟨t', ht'', he⟩

lemma addTxToChart_zero (dayOf : Nat → Nat) (acc : List Bucket) (t : Txn) (d : Nat)
    (ht : dayOf t.created_at = d → t.status ≠ "succeeded")
    (hacc : ∀ b ∈ acc, b.date = d → b.revenue = 0) :
    ∀ b ∈ addTxToChart dayOf acc t, b.date = d → b.revenue = 0 := by
  intro b hb hbd
  unfold addTxToChart at hb
  split_ifs at hb with h1 h2 h3
  · rcases List.mem_map.1 hb with ⟨b', hb', rfl⟩
    by_cases hd : b'.date = dayOf t.created_at
    · exfalso
      apply ht _ h2
      rw [if_pos hd] at hbd
      rw [← hd]
      exact hbd
    · rw [if_neg hd] at hbd ⊢
      exact hacc b' hb' hbd
  · exact hacc b hb hbd
  · rcases List.mem_append.1 hb with h | h
    · exact hacc b h hbd
    · exfalso
      simp only [List.mem_singleton] at h
      subst h
      exact ht hbd h3
  · rcases List.mem_append.1 hb with h | h
    · exact hacc b h hbd
    · simp only [List.mem_singleton] at h
      subst h
      rfl

lemma foldl_addTx_zero (dayOf : Nat → Nat) :
    ∀ (l : List Txn) (acc : List Bucket) (d : Nat),
      (∀ t ∈ l, dayOf t.created_at = d → t.status ≠ "succeeded") →
      (∀ b ∈ acc, b.date = d → b.revenue = 0) →
      ∀ b ∈ l.foldl (addTxToChart dayOf) acc, b.date = d → b.revenue = 0 := by
  intro l
  induction l with
  | nil => exact fun acc d _ hacc => hacc
  | cons t l ih =>
    intro acc d hl hacc
    rw [List.foldl_cons]
    refine ih _ d (fun t' ht' => hl t' (List.mem_cons_of_mem t ht')) ?_
    exact addTxToChart_zero dayOf acc t d (hl t (List.mem_cons_self t l)) hacc

/-- C3: the trend series holds at most 14 day-buckets, and every
bucket's date is the day-bucket of some transaction of the project
created within the trailing 30-day window measured at fetch time. -/
theorem c3_trend_window (dayOf : Nat → Nat) (now pid : Nat) (txs : List Txn) :
    (fetchChartData dayOf now pid txs).length ≤ 14 ∧
    ∀ b ∈ fetchChartData dayOf now pid txs, ∃ t ∈ txs,
      t.project_id = pid ∧ now - thirtyDaysMs ≤ t.created_at ∧
      dayOf t.created_at = b.date := by
  constructor
  · unfold fetchChartData
    simp only [List.length_drop]
    omega
  · intro b hb
    have hb' : b ∈ chartGroups dayOf now pid txs := List.drop_subset _ _ hb
    unfold chartGroups groupByDay at hb'
    rcases groupByDay_date_mem dayOf _ _ b hb' with ⟨b', hb'', _⟩ | ⟨t, ht, he⟩
    · simp at hb''
    · have ht' : t ∈ chartWindow now pid txs :=
        (List.perm_insertionSort createdAsc _).subset ht
      unfold chartWindow at ht'
      rw [List.mem_filter] at ht'
      obtain ⟨htx, hcond⟩ := ht'
      simp only [decide_eq_true_eq] at hcond
      exact ⟨t, htx, hcond.1, hcond.2, he.symm⟩

/-- The day-bucketing function used for concrete chart evaluations: a
timestamp's day index, with days 86400000 milliseconds long. -/
def msDay (ms : Nat) : Nat := ms / 86400000

/-- A table of fifteen window transactions of project 1 on fifteen
distinct days: a single failed transaction on day 31, and a succeeded
transaction on each of days 32 through 45. -/
def c4Txs : List Txn :=
  { project_id := 1, customer_id := none, type := "payment", status := "failed",
    amount := 100, fee_amount := 0, created_at := 31 * 86400000 } ::
  (List.range 14).map (fun i =>
    { project_id := 1, customer_id := none, type := "payment",
      status := "succeeded", amount := 100, fee_amount := 0,
      created_at := (32 + i) * 86400000 })

/-- C4 fails as stated: with fetch time at day 60, day 31 lies inside
the 30-day window and carries a transaction but no succeeded one, yet
the series produced by `fetchChartData` has no bucket for day 31 at all
— `slice(-14)` discards it, because the window holds fifteen distinct
day-buckets. -/
theorem c4_counterexample :
    (c4Txs.any (fun t => t.project_id = 1 ∧
        60 * 86400000 - thirtyDaysMs ≤ t.created_at ∧
        msDay t.created_at = 31)) = true ∧
    (c4Txs.all (fun t => msDay t.created_at = 31 → t.status ≠ "succeeded")) = true ∧
    ((fetchChartData msDay (60 * 86400000) 1 c4Txs).all
        (fun b => b.date ≠ 31)) = true := by
  decide

/-- C4 (amended): in the grouped day series of `fetchChartData`, a day
with at least one window transaction but none succeeded appears as a
bucket with revenue 0 — though the final `slice(-14)` can drop that
bucket when the window holds more than fourteen distinct day-buckets —
while a day with no window transaction at all yields no bucket in the
series (sparse, not zero-filled), and the emitted series is drawn from
the grouped day series. -/
theorem c4_sparse_zero_buckets (dayOf : Nat → Nat) (now pid : Nat)
    (txs : List Txn) (d1 d2 : Nat)
    (h1 : ∃ t ∈ chartWindow now pid txs, dayOf t.created_at = d1)
    (h2 : ∀ t ∈ chartWindow now pid txs, dayOf t.created_at = d1 →
      t.status ≠ "succeeded")
    (h3 : ∀ t ∈ chartWindow now pid txs, dayOf t.created_at ≠ d2) :
    (∃ b ∈ chartGroups dayOf now pid txs, b.date = d1 ∧ b.revenue = 0) ∧
    (∀ b ∈ fetchChartData dayOf now pid txs, b.date ≠ d2) ∧
    (∀ b ∈ fetchChartData dayOf now pid txs, b ∈ chartGroups dayOf now pid txs) := by
  have hmem : ∀ t : Txn,
      t ∈ List.insertionSort createdAsc (chartWindow now pid txs) ↔
      t ∈ chartWindow now pid txs :=
    fun t => (List.perm_insertionSort createdAsc _).mem_iff
  refine ⟨?_, ?_, fun b hb => List.drop_subset _ _ hb⟩
  · obtain ⟨t0, ht0, he0⟩ := h1
    have hex : ∃ b ∈ chartGroups dayOf now pid txs, b.date = d1 := by
      unfold chartGroups groupByDay
      refine foldl_addTx_exists_date dayOf _ [] d1 (Or.inr ⟨t0, ?_, he0⟩)
      exact (hmem t0).2 ht0
    obtain ⟨b, hb, hbd⟩ := hex
    refine ⟨b, hb, hbd, ?_⟩
    unfold chartGroups groupByDay at hb
    refine foldl_addTx_zero dayOf _ [] d1 ?_ (by intro b' hb'; simp at hb') b hb hbd
    intro t ht htd
    exact h2 t ((hmem t).1 ht) htd
  · intro b hb
    have hb' : b ∈ chartGroups dayOf now pid txs := List.drop_subset _ _ hb
    unfold chartGroups groupByDay at hb'
    rcases groupByDay_date_mem dayOf _ _ b hb' with ⟨b', hb'', _⟩ | ⟨t, ht, he⟩
    · simp at hb''
    · intro hcontra
      exact h3 t ((hmem t).1 ht) (by rw [← he, hcontra])

/-- Witness for the amended C4: day 31 of `c4Txs` carries only a failed
transaction and gets a zero-revenue grouped bucket, and day 99 carries
no transaction and never appears in the series. -/
theorem c4_sparse_zero_buckets_witness :
    (∃ t ∈ chartWindow (60 * 86400000) 1 c4Txs, msDay t.created_at = 31) ∧
    ((∃ b ∈ chartGroups msDay (60 * 86400000) 1 c4Txs,
        b.date = 31 ∧ b.revenue = 0) ∧
     (∀ b ∈ fetchChartData msDay (60 * 86400000) 1 c4Txs, b.date ≠ 99) ∧
     (∀ b ∈ fetchChartData msDay (60 * 86400000) 1 c4Txs,
        b ∈ chartGroups msDay (60 * 86400000) 1 c4Txs)) :=
  ⟨by decide,
   c4_sparse_zero_buckets msDay (60 * 86400000) 1 c4Txs 31 99
     (by decide) (by decide) (by decide)⟩

/-- A row of the `monthly_revenue_by_project` view. -/
structure MonthlyRow where
  month : Nat
  project_id : Nat
  total_revenue : Int
  total_fees : Int
  net_revenue : Int
  paying_customers : Nat
deriving DecidableEq, Repr

/-- The grouping key of the monthly view:
`GROUP BY DATE_TRUNC('month', t.created_at), p.id`. -/
def monthKey (monthOf : Nat → Nat) (t : Txn) : Nat × Nat :=
  (monthOf t.created_at, t.project_id)

/-- `SUM(CASE WHEN t.status = 'succeeded' THEN t.amount ELSE 0 END)`
over one group of the monthly view. -/
def groupTotalRevenue (g : List Txn) : Int :=
  (g.map (fun t => if t.status = "succeeded" then t.amount else 0)).sum

/-- `SUM(CASE WHEN t.status = 'succeeded' THEN t.fee_amount ELSE 0 END)`
over one group of the monthly view. -/
def groupTotalFees (g : List Txn) : Int :=
  (g.map (fun t => if t.status = "succeeded" then t.fee_amount else 0)).sum

/-- `SUM(CASE WHEN t.status = 'succeeded' THEN (t.amount - t.fee_amount)
ELSE 0 END)` over one group of the monthly view. -/
def groupNetRevenue (g : List Txn) : Int :=
  (g.map (fun t => if t.status = "succeeded" then t.amount - t.fee_amount else 0)).sum

/-- `COUNT(DISTINCT CASE WHEN t.status = 'succeeded' AND t.type =
'payment' THEN t.customer_id END)` over one group: the CASE yields NULL
for non-matching rows and `COUNT(DISTINCT ...)` ignores NULLs, so only
distinct non-null customer ids of succeeded payments are counted. -/
def groupPayingCustomers (g : List Txn) : Nat :=
  ((g.filterMap (fun t =>
      if t.status = "succeeded" ∧ t.type = "payment" then t.customer_id
      else none)).dedup).length

/-- The FROM/JOIN clause of the monthly view: `transactions t JOIN
projects p ON t.project_id = p.id` keeps exactly the transactions whose
project exists. -/
def monthlyJoined (projects : List Nat) (txs : List Txn) : List Txn :=
  txs.filter (fun t => t.project_id ∈ projects)

/-- The distinct grouping keys produced by the GROUP BY of the monthly
view. -/
def monthlyKeys (monthOf : Nat → Nat) (projects : List Nat)
    (txs : List Txn) : List (Nat × Nat) :=
  ((monthlyJoined projects txs).map (monthKey monthOf)).dedup

/-- The group of joined transactions sharing one (month, project)
key. -/
def monthlyGroup (monthOf : Nat → Nat) (projects : List Nat)
    (txs : List Txn) (k : Nat × Nat) : List Txn :=
  (monthlyJoined projects txs).filter (fun t => monthKey monthOf t = k)

/-- The output row of the monthly view for one grouping key. -/
def monthlyRowFor (monthOf : Nat → Nat) (projects : List Nat)
    (txs : List Txn) (k : Nat × Nat) : MonthlyRow :=
  { month := k.1, project_id := k.2,
    total_revenue := groupTotalRevenue (monthlyGroup monthOf projects txs k),
    total_fees := groupTotalFees (monthlyGroup monthOf projects txs k),
    net_revenue := groupNetRevenue (monthlyGroup monthOf projects txs k),
    paying_customers := groupPayingCustomers (monthlyGroup monthOf projects txs k) }

/-- The `monthly_revenue_by_project` view: transactions inner-joined
with `projects`, grouped by calendar month and project (the ORDER BY of
the view only presents the grouped rows and does not affect any claim
below). -/
def monthlyRevenueByProject (monthOf : Nat → Nat) (projects : List Nat)
    (txs : List Txn) : List MonthlyRow :=
  (monthlyKeys monthOf projects txs).map (monthlyRowFor monthOf projects txs)

/-- A row of the `active_subscriptions_by_project` view. -/
structure ActiveSubsRow where
  project_id : Nat
  total_active : Nat
  mrr : Int
  scheduled_cancellations : Nat
deriving DecidableEq, Repr

/-- The FROM/WHERE/JOIN of the active-subscriptions view: subscriptions
with `status = 'active'` whose project exists. -/
def activeJoined (projects : List Nat) (subs : List Subscription) :
    List Subscription :=
  (subs.filter (fun s => s.status = "active")).filter
    (fun s => s.project_id ∈ projects)

/-- The group of one project's rows in the active-subscriptions view. -/
def activeGroup (projects : List Nat) (subs : List Subscription) (p : Nat) :
    List Subscription :=
  (activeJoined projects subs).filter (fun s => s.project_id = p)

/-- The output row of the active-subscriptions view for one project. -/
def activeRowFor (projects : List Nat) (subs : List Subscription)
    (p : Nat) : ActiveSubsRow :=
  { project_id := p, total_active := (activeGroup projects subs p).length,
    mrr := ((activeGroup projects subs p).map (fun s => s.amount)).sum,
    scheduled_cancellations :=
      ((activeGroup projects subs p).filter (fun s => s.cancel_at_period_end)).length }

/-- The `active_subscriptions_by_project` view: subscriptions filtered
to `status = 'active'`, inner-joined with `projects`, grouped by
project; `mrr` is `SUM(s.amount)` over the group. -/
def activeSubscriptionsByProject (projects : List Nat)
    (subs : List Subscription) : List ActiveSubsRow :=
  (((activeJoined projects subs).map (fun s => s.project_id)).dedup).map
    (activeRowFor projects subs)

/-- Modelled from the spec (the reference aggregate both sides of the
refinement claim C7 are compared against): the sum of `amount` over a
project's subscriptions with `status = "active"`. -/
def specActiveMrr (pid : Nat) (subs : List Subscription) : Int :=
  ((subs.filter (fun s => s.project_id = pid ∧ s.status = "active")).map
      (fun s => s.amount)).sum

lemma sum_map_filter_not_add {α : Type} (l : List α) (p : α → Bool) (f : α → Int) :
    ((l.filter p).map f).sum + ((l.filter (fun x => !(p x))).map f).sum
      = (l.map f).sum := by
  induction l with
  | nil => simp
  | cons x l ih =>
    rcases Bool.eq_false_or_eq_true (p x) with h | h <;>
      simp [List.filter_cons, h] <;>
      linarith [ih]

lemma sum_map_ite {α : Type} (l : List α) (p : α → Prop) [DecidablePred p]
    (f : α → Int) :
    (l.map (fun x => if p x then f x else 0)).sum
      = ((l.filter (fun x => p x)).map f).sum := by
  induction l with
  | nil => simp
  | cons x l ih =>
    by_cases h : p x
    · simp [h, ih]
    · simp [h, ih]

lemma sum_fibers {α κ : Type} [DecidableEq κ] (key : α → κ) (f : α → Int) :
    ∀ (ks : List κ) (l : List α), ks.Nodup → (∀ x ∈ l, key x ∈ ks) →
      (ks.map (fun k => ((l.filter (fun x => key x = k)).map f).sum)).sum
        = (l.map f).sum := by
  intro ks
  induction ks with
  | nil =>
    intro l _ hcov
    cases l with
    | nil => simp
    | cons x l => exact absurd (hcov x (List.mem_cons_self x l)) (List.not_mem_nil _)
  | cons k ks ih =>
    intro l hnd hcov
    rw [List.map_cons, List.sum_cons]
    have hnd' : ks.Nodup := (List.nodup_cons.1 hnd).2
    have hk : k ∉ ks := (List.nodup_cons.1 hnd).1
    have hagree : ∀ k' ∈ ks,
        ((l.filter (fun x => key x = k')).map f).sum
          = (((l.filter (fun x => !(decide (key x = k)))).filter
              (fun x => key x = k')).map f).sum := by
      intro k' hk'
      have heq : l.filter (fun x => key x = k')
          = (l.filter (fun x => !(decide (key x = k)))).filter
              (fun x => key x = k') := by
        rw [List.filter_filter]
        apply List.filter_congr
        intro x _
        by_cases hxe : key x = k'
        · have hxk : ¬ key x = k := by
            intro h
            exact hk (h ▸ hxe ▸ hk')
          have hkk : ¬ k' = k := fun h => hk (h ▸ hk')
          simp [hxe, hxk, hkk]
        · simp [hxe]
      rw [heq]
    rw [List.map_congr_left hagree]
    rw [ih (l.filter (fun x => !(decide (key x = k)))) hnd' ?cov]
    case cov =>
      intro x hx
      rw [List.mem_filter] at hx
      obtain ⟨hxl, hxk⟩ := hx
      rcases List.mem_cons.1 (hcov x hxl) with h | h
      · exfalso
        simp [h] at hxk
      · exact h
    have hsplit := sum_map_filter_not_add l (fun x => decide (key x = k)) f
    linarith [hsplit]

/-- C10: in the monthly view's aggregates, a succeeded payment with no
linked customer adds its amount to `total_revenue` but never changes
`paying_customers` — the CASE expression yields NULL for it and
`COUNT(DISTINCT ...)` ignores NULLs — so a single such transaction gives
a group with `paying_customers = 0` and positive `total_revenue`. -/
theorem c10_paying_customers_nonnull (g : List Txn) (t : Txn)
    (hs : t.status = "succeeded") (hp : t.type = "payment")
    (hc : t.customer_id = none) (ha : 0 < t.amount) :
    groupTotalRevenue (t :: g) = t.amount + groupTotalRevenue g ∧
    groupPayingCustomers (t :: g) = groupPayingCustomers g ∧
    groupPayingCustomers [t] = 0 ∧ 0 < groupTotalRevenue [t] := by
  unfold groupTotalRevenue groupPayingCustomers
  refine ⟨?_, ?_, ?_, ?_⟩
  · simp [hs]
  · simp [List.filterMap_cons, hs, hp, hc]
  · simp [List.filterMap_cons, hs, hp, hc]
  · simp [hs, ha]

/-- Witness for C10: a succeeded payment of amount 500 with a NULL
customer, alone in its group. -/
theorem c10_paying_customers_nonnull_witness :
    groupTotalRevenue
        ({ project_id := 1, customer_id := none, type := "payment",
           status := "succeeded", amount := 500, fee_amount := 0,
           created_at := 0 } :: ([] : List Txn))
      = ({ project_id := 1, customer_id := none, type := "payment",
           status := "succeeded", amount := 500, fee_amount := 0,
           created_at := 0 } : Txn).amount + groupTotalRevenue [] ∧
    groupPayingCustomers
        ({ project_id := 1, customer_id := none, type := "payment",
           status := "succeeded", amount := 500, fee_amount := 0,
           created_at := 0 } :: ([] : List Txn))
      = groupPayingCustomers [] ∧
    groupPayingCustomers
        [{ project_id := 1, customer_id := none, type := "payment",
           status := "succeeded", amount := 500, fee_amount := 0,
           created_at := 0 }] = 0 ∧
    0 < groupTotalRevenue
        [{ project_id := 1, customer_id := none, type := "payment",
           status := "succeeded", amount := 500, fee_amount := 0,
           created_at := 0 }] :=
  c10_paying_customers_nonnull [] _ rfl rfl rfl (by decide)

/-- C7: both the `mrr` column of `active_subscriptions_by_project` and
the client-side `mrr` of `fetchStats` equal the sum of `amount` over the
project's subscriptions with `status = "active"`, hence agree with each
other. -/
theorem c7_mrr_agreement (projects : List Nat) (subs : List Subscription)
    (pid : Nat) (txs : List Txn) (custs : List Customer)
    (hp : pid ∈ projects) :
    (∀ r ∈ activeSubscriptionsByProject projects subs, r.project_id = pid →
      r.mrr = specActiveMrr pid subs) ∧
    (fetchStats pid txs custs subs).mrr = specActiveMrr pid subs := by
  constructor
  · intro r hr hrp
    unfold activeSubscriptionsByProject at hr
    rcases List.mem_map.1 hr with ⟨p', _, rfl⟩
    have hpp : p' = pid := hrp
    subst hpp
    show ((activeGroup projects subs p').map (fun s => s.amount)).sum
      = specActiveMrr p' subs
    unfold specActiveMrr activeGroup activeJoined
    have heq : ((subs.filter (fun s => s.status = "active")).filter
          (fun s => s.project_id ∈ projects)).filter (fun s => s.project_id = p')
        = subs.filter (fun s => s.project_id = p' ∧ s.status = "active") := by
      rw [List.filter_filter, List.filter_filter]
      apply List.filter_congr
      intro s _
      by_cases h1 : s.project_id = p'
      · simp [h1, hp]
      · simp [h1]
    rw [heq]
  · rfl

/-- Witness for C7: project 1 with one active and one canceled
subscription. -/
theorem c7_mrr_agreement_witness :
    (∀ r ∈ activeSubscriptionsByProject [1]
        [{ project_id := 1, customer_id := 10, amount := 700,
           status := "active", cancel_at_period_end := false, created_at := 0 },
         { project_id := 1, customer_id := 11, amount := 900,
           status := "canceled", cancel_at_period_end := false, created_at := 1 }],
      r.project_id = 1 →
      r.mrr = specActiveMrr 1
        [{ project_id := 1, customer_id := 10, amount := 700,
           status := "active", cancel_at_period_end := false, created_at := 0 },
         { project_id := 1, customer_id := 11, amount := 900,
           status := "canceled", cancel_at_period_end := false, created_at := 1 }]) ∧
    (fetchStats 1 [] []
        [{ project_id := 1, customer_id := 10, amount := 700,
           status := "active", cancel_at_period_end := false, created_at := 0 },
         { project_id := 1, customer_id := 11, amount := 900,
           status := "canceled", cancel_at_period_end := false, created_at := 1 }]).mrr
      = specActiveMrr 1
        [{ project_id := 1, customer_id := 10, amount := 700,
           status := "active", cancel_at_period_end := false, created_at := 0 },
         { project_id := 1, customer_id := 11, amount := 900,
           status := "canceled", cancel_at_period_end := false, created_at := 1 }] :=
  c7_mrr_agreement [1] _ 1 [] [] (by decide)

lemma group_zero_of_no_succeeded (g : List Txn)
    (h : ∀ t ∈ g, t.status ≠ "succeeded") :
    groupTotalRevenue g = 0 ∧ groupTotalFees g = 0 ∧ groupNetRevenue g = 0 := by
  unfold groupTotalRevenue groupTotalFees groupNetRevenue
  refine ⟨?_, ?_, ?_⟩ <;>
  · apply List.sum_eq_zero
    intro x hx
    rcases List.mem_map.1 hx with ⟨t, ht, rfl⟩
    simp [h t ht]

/-- C8: a (project, month) row of `monthly_revenue_by_project` exists
exactly when the project has at least one transaction of any status in
that month; when all of a month's transactions are non-succeeded its row
carries zero revenue, fee and net sums; in particular a project with no
transactions gets no row (the view is an inner join, not zero-filled). -/
theorem c8_monthly_row_existence (monthOf : Nat → Nat) (projects : List Nat)
    (txs : List Txn) (p m : Nat) (hp : p ∈ projects) :
    ((∃ r ∈ monthlyRevenueByProject monthOf projects txs,
        r.project_id = p ∧ r.month = m) ↔
      ∃ t ∈ txs, t.project_id = p ∧ monthOf t.created_at = m) ∧
    ((∀ t ∈ txs, t.project_id = p → monthOf t.created_at = m →
        t.status ≠ "succeeded") →
      ∀ r ∈ monthlyRevenueByProject monthOf projects txs,
        r.project_id = p → r.month = m →
        r.total_revenue = 0 ∧ r.total_fees = 0 ∧ r.net_revenue = 0) := by
  constructor
  · constructor
    · rintro ⟨r, hr, hrp, hrm⟩
      unfold monthlyRevenueByProject at hr
      rcases List.mem_map.1 hr with ⟨k, hk, rfl⟩
      have hk' := List.mem_dedup.1 hk
      rcases List.mem_map.1 hk' with ⟨t, ht, hkey⟩
      have ht' := List.mem_filter.1 ht
      exact ⟨t, ht'.1, (congrArg Prod.snd hkey).trans hrp,
        (congrArg Prod.fst hkey).trans hrm⟩
    · rintro ⟨t, ht, htp, htm⟩
      have htj : t ∈ monthlyJoined projects txs := by
        unfold monthlyJoined
        rw [List.mem_filter]
        exact ⟨ht, by simp [htp, hp]⟩
      have hk : monthKey monthOf t ∈ monthlyKeys monthOf projects txs := by
        unfold monthlyKeys
        rw [List.mem_dedup]
        exact List.mem_map_of_mem _ htj
      exact ⟨monthlyRowFor monthOf projects txs (monthKey monthOf t),
        List.mem_map_of_mem _ hk, htp, htm⟩
  · intro hz r hr hrp hrm
    unfold monthlyRevenueByProject at hr
    rcases List.mem_map.1 hr with ⟨k, _, rfl⟩
    have hg : ∀ t ∈ monthlyGroup monthOf projects txs k,
        t.status ≠ "succeeded" := by
      intro t ht
      obtain ⟨ht1, ht2⟩ := List.mem_filter.1 ht
      obtain ⟨ht0, _⟩ := List.mem_filter.1 ht1
      have hkey : monthKey monthOf t = k := by simpa using ht2
      exact hz t ht0 ((congrArg Prod.snd hkey).trans hrp)
        ((congrArg Prod.fst hkey).trans hrm)
    exact group_zero_of_no_succeeded _ hg

/-- Witness for C8: project 1 against the fifteen-transaction table
`c4Txs`, whose day-31 (here month-31) transaction is failed. -/
theorem c8_monthly_row_existence_witness :
    ((∃ r ∈ monthlyRevenueByProject msDay [1] c4Txs,
        r.project_id = 1 ∧ r.month = 31) ↔
      ∃ t ∈ c4Txs, t.project_id = 1 ∧ msDay t.created_at = 31) ∧
    ((∀ t ∈ c4Txs, t.project_id = 1 → msDay t.created_at = 31 →
        t.status ≠ "succeeded") →
      ∀ r ∈ monthlyRevenueByProject msDay [1] c4Txs,
        r.project_id = 1 → r.month = 31 →
        r.total_revenue = 0 ∧ r.total_fees = 0 ∧ r.net_revenue = 0) :=
  c8_monthly_row_existence msDay [1] c4Txs 1 31 (by decide)

/-- C2: for a project, the sum of `total_revenue` over all of its rows
in `monthly_revenue_by_project` equals the sum of `amount` over all of
its succeeded transactions — the per-month partition loses and adds
nothing. -/
theorem c2_monthly_revenue_partition (monthOf : Nat → Nat)
    (projects : List Nat) (txs : List Txn) (p : Nat) (hp : p ∈ projects) :
    (((monthlyRevenueByProject monthOf projects txs).filter
        (fun r => r.project_id = p)).map (fun r => r.total_revenue)).sum
      = ((txs.filter (fun t => t.project_id = p ∧ t.status = "succeeded")).map
          (fun t => t.amount)).sum := by
  have hA : (monthlyRevenueByProject monthOf projects txs).filter
        (fun r => r.project_id = p)
      = ((monthlyKeys monthOf projects txs).filter (fun k => k.2 = p)).map
          (monthlyRowFor monthOf projects txs) := by
    unfold monthlyRevenueByProject
    exact List.filter_map (monthlyRowFor monthOf projects txs)
      (monthlyKeys monthOf projects txs)
  rw [hA, List.map_map]
  have hC : ∀ k ∈ (monthlyKeys monthOf projects txs).filter (fun k => k.2 = p),
      ((fun r => MonthlyRow.total_revenue r) ∘ monthlyRowFor monthOf projects txs) k
        = ((((monthlyJoined projects txs).filter (fun t => t.project_id = p)).filter
            (fun t => monthKey monthOf t = k)).map
              (fun t => if t.status = "succeeded" then t.amount else 0)).sum := by
    intro k hk
    have hkp : k.2 = p := by
      have := (List.mem_filter.1 hk).2
      simpa using this
    show groupTotalRevenue (monthlyGroup monthOf projects txs k)
      = ((((monthlyJoined projects txs).filter (fun t => t.project_id = p)).filter
          (fun t => monthKey monthOf t = k)).map
            (fun t => if t.status = "succeeded" then t.amount else 0)).sum
    unfold groupTotalRevenue monthlyGroup
    have hl : (monthlyJoined projects txs).filter (fun t => monthKey monthOf t = k)
        = ((monthlyJoined projects txs).filter (fun t => t.project_id = p)).filter
            (fun t => monthKey monthOf t = k) := by
      rw [List.filter_filter]
      apply List.filter_congr
      intro t _
      by_cases hmk : monthKey monthOf t = k
      · have htp : t.project_id = p := by
          have h2 : t.project_id = k.2 := congrArg Prod.snd hmk
          rw [h2, hkp]
        simp [hmk, htp]
      · simp [hmk]
    rw [hl]
  rw [List.map_congr_left hC]
  have hD := sum_fibers (monthKey monthOf)
    (fun t => if t.status = "succeeded" then t.amount else 0)
    ((monthlyKeys monthOf projects txs).filter (fun k => k.2 = p))
    ((monthlyJoined projects txs).filter (fun t => t.project_id = p))
    ((List.nodup_dedup _).filter _) ?cov
  case cov =>
    intro t ht
    obtain ⟨htj, htp⟩ := List.mem_filter.1 ht
    rw [List.mem_filter]
    constructor
    · unfold monthlyKeys
      rw [List.mem_dedup]
      exact List.mem_map_of_mem _ htj
    · simpa using htp
  rw [hD]
  have hE := sum_map_ite
    ((monthlyJoined projects txs).filter (fun t => t.project_id = p))
    (fun t => t.status = "succeeded") (fun t => t.amount)
  rw [hE]
  have hF : ((monthlyJoined projects txs).filter
        (fun t => t.project_id = p)).filter (fun t => t.status = "succeeded")
      = txs.filter (fun t => t.project_id = p ∧ t.status = "succeeded") := by
    unfold monthlyJoined
    rw [List.filter_filter, List.filter_filter]
    apply List.filter_congr
    intro t _
    by_cases h1 : t.project_id = p
    · by_cases hs : t.status = "succeeded" <;> simp [h1, hs, hp]
    · simp [h1]
  rw [hF]

/-- Witness for C2: project 1 against the fifteen-transaction table
`c4Txs` with day-index months. -/
theorem c2_monthly_revenue_partition_witness :
    (((monthlyRevenueByProject msDay [1] c4Txs).filter
        (fun r => r.project_id = 1)).map (fun r => r.total_revenue)).sum
      = ((c4Txs.filter (fun t => t.project_id = 1 ∧ t.status = "succeeded")).map
          (fun t => t.amount)).sum :=
  c2_monthly_revenue_partition msDay [1] c4Txs 1 (by decide)
